import Mathlib

/-!
Shallow embedding of the per-tick simulation engine of `src/src/App.tsx`
(a two-player fighting game written in React/TypeScript).

Modelling conventions:
* JavaScript numbers are modelled as exact rationals (`ℚ`) for spatial
  quantities, health and energy; counters and timers, which only ever hold
  integers, are modelled as `ℤ`.
* `checkCollision` is duck-typed in the source (`rect1: any`): when a
  `Projectile` is passed, its missing `width`/`height` fields read as
  `undefined`, arithmetic on them yields `NaN`, and every comparison with
  `NaN` is false.  This is captured by `JsRect`, whose `width`/`height` are
  `Option ℚ` (`none` = absent field) and by NaN-propagating comparisons.
* `Date.now()` ids and the `Math.random()`-driven particle system are pure
  rendering feedback with no effect on fighters or projectiles; particle
  state is omitted and ids are modelled as `0`.
* React state updates (`setFighters` etc.) are modelled as immediate
  sequential assignment inside one tick, in the textual order of
  `updateGame`: per-fighter updates (which may append projectiles), then the
  melee pass, then the projectile pass over the threaded fighters.
-/

namespace FighterGame

/-- Global game phase, `useState<'menu' | 'playing' | 'paused' | 'gameOver'>`. -/
inductive Phase where
  | menu | playing | paused | gameOver
deriving DecidableEq

/-- Facing direction of a fighter, `'left' | 'right'`. -/
inductive Facing where
  | left | right
deriving DecidableEq

/-- Combat state of a fighter (the six-plus-one `state` union of the source). -/
inductive FState where
  | idle | walking | jumping | attacking | blocking | hit | special
deriving DecidableEq

/-- Projectile damage-type tag, `'fireball' | 'ice' | 'lightning'`. -/
inductive PType where
  | fireball | ice | lightning
deriving DecidableEq

/-- The `Fighter` interface of the source. -/
structure Fighter where
  id : ℤ
  x : ℚ
  y : ℚ
  width : ℚ
  height : ℚ
  velocityX : ℚ
  velocityY : ℚ
  health : ℚ
  maxHealth : ℚ
  energy : ℚ
  maxEnergy : ℚ
  facing : Facing
  state : FState
  color : String
  name : String
  isGrounded : Bool
  attackCooldown : ℤ
  specialCooldown : ℤ
  hitStun : ℤ
  blockStun : ℤ
  combo : ℤ
  animationFrame : ℤ
  animationTimer : ℤ
deriving DecidableEq

/-- The `Projectile` interface of the source. -/
structure Projectile where
  id : ℤ
  x : ℚ
  y : ℚ
  velocityX : ℚ
  velocityY : ℚ
  damage : ℚ
  owner : ℤ
  type : PType
  color : String
  animationFrame : ℤ
deriving DecidableEq

/-- Pressed-key snapshot: the twelve keys read by `updateGame` out of
`keysRef.current` (player 1: q d z f g s, player 2: arrows n m). -/
structure Keys where
  keyQ : Bool
  keyD : Bool
  keyZ : Bool
  keyF : Bool
  keyG : Bool
  keyS : Bool
  arrowLeft : Bool
  arrowRight : Bool
  arrowUp : Bool
  arrowDown : Bool
  keyN : Bool
  keyM : Bool
deriving DecidableEq

def CANVAS_WIDTH : ℚ := 1200
def CANVAS_HEIGHT : ℚ := 600
def GROUND_Y : ℚ := 500
def GRAVITY : ℚ := 0.8
def JUMP_FORCE : ℚ := -18
def MOVE_SPEED : ℚ := 1.2
def ATTACK_DAMAGE : ℚ := 15
def SPECIAL_DAMAGE : ℚ := 25

/-- Duck-typed rectangle as consumed by `checkCollision (rect1: any, rect2: any)`:
`x`/`y` are present at every call site, while `width`/`height` are absent
(`none`) when a `Projectile` is passed. -/
structure JsRect where
  x : ℚ
  y : ℚ
  width : Option ℚ
  height : Option ℚ

/-- JS addition of a number and a possibly-absent field: `a + undefined` is `NaN`,
modelled as `none`. -/
def jsAdd (a : ℚ) (b : Option ℚ) : Option ℚ := b.map (fun w => a + w)

/-- JS `<` where either side may be `NaN` (`none`): any comparison with `NaN`
is false. -/
def jsLt : Option ℚ → Option ℚ → Bool
  | some a, some b => decide (a < b)
  | _, _ => false

/-- JS `>` with NaN propagation. -/
def jsGt (a b : Option ℚ) : Bool := jsLt b a

/-- The `checkCollision` helper of the source, on duck-typed rectangles. -/
def checkCollision (r1 r2 : JsRect) : Bool :=
  jsLt (some r1.x) (jsAdd r2.x r2.width) &&
  jsGt (jsAdd r1.x r1.width) (some r2.x) &&
  jsLt (some r1.y) (jsAdd r2.y r2.height) &&
  jsGt (jsAdd r1.y r1.height) (some r2.y)

/-- View of a fighter as the rectangle `checkCollision` reads from it. -/
def Fighter.rect (f : Fighter) : JsRect :=
  { x := f.x, y := f.y, width := some f.width, height := some f.height }

/-- View of a projectile as the rectangle `checkCollision` reads from it:
its `width` and `height` properties do not exist. -/
def Projectile.rect (p : Projectile) : JsRect :=
  { x := p.x, y := p.y, width := none, height := none }

/-- Color string attached to each projectile type in `createProjectile`. -/
def PType.colorOf : PType → String
  | .fireball => "#FF6B35"
  | .ice => "#00D4FF"
  | .lightning => "#FFD700"

/-- The `createProjectile` callback (spawn position at the leading edge,
horizontal speed 8 toward the facing direction); the `Date.now()` id is
modelled as `0`. -/
def createProjectile (fighter : Fighter) (type : PType) : Projectile :=
  { id := 0
    x := if fighter.facing = .right then fighter.x + fighter.width else fighter.x
    y := fighter.y + fighter.height / 2
    velocityX := if fighter.facing = .right then 8 else -8
    velocityY := 0
    damage := SPECIAL_DAMAGE
    owner := fighter.id
    type := type
    color := type.colorOf
    animationFrame := 0 }

/-- Start-of-tick bookkeeping of `updateGame` for one fighter, in source order:
animation counters, the four guarded timer decrements, energy regeneration,
and the reset of state `hit` to `idle` once both stun timers are zero. -/
def tickTimers (f : Fighter) : Fighter :=
  let animationTimer := f.animationTimer + 1
  let animationFrame :=
    if animationTimer % 8 = 0 then f.animationFrame + 1 else f.animationFrame
  let attackCooldown :=
    if 0 < f.attackCooldown then f.attackCooldown - 1 else f.attackCooldown
  let specialCooldown :=
    if 0 < f.specialCooldown then f.specialCooldown - 1 else f.specialCooldown
  let hitStun := if 0 < f.hitStun then f.hitStun - 1 else f.hitStun
  let blockStun := if 0 < f.blockStun then f.blockStun - 1 else f.blockStun
  let energy :=
    if f.energy < f.maxEnergy then min f.maxEnergy (f.energy + 0.5) else f.energy
  let state :=
    if hitStun = 0 ∧ blockStun = 0 ∧ f.state = .hit then FState.idle else f.state
  { f with animationTimer := animationTimer, animationFrame := animationFrame,
           attackCooldown := attackCooldown, specialCooldown := specialCooldown,
           hitStun := hitStun, blockStun := blockStun,
           energy := energy, state := state }

/-- Friction branch taken when neither effective horizontal move applies:
`velocityX *= 0.8`, snapping to `0` (and `walking` back to `idle`) below `0.1`. -/
def applyFriction (f : Fighter) : Fighter :=
  let v := f.velocityX * 0.8
  if |v| < 0.1 then
    { f with velocityX := 0,
             state := if f.state = .walking then FState.idle else f.state }
  else
    { f with velocityX := v }

/-- Horizontal move keys: each branch additionally requires room toward that
side (`x > 0`, resp. `x < CANVAS_WIDTH - width`); otherwise friction applies. -/
def moveStage (mvL mvR : Bool) (f : Fighter) : Fighter :=
  if mvL ∧ 0 < f.x then
    { f with velocityX := -MOVE_SPEED, facing := .left, state := .walking }
  else if mvR ∧ f.x < CANVAS_WIDTH - f.width then
    { f with velocityX := MOVE_SPEED, facing := .right, state := .walking }
  else
    applyFriction f

/-- Jump key, only while grounded. -/
def jumpStage (jmp : Bool) (f : Fighter) : Fighter :=
  if jmp ∧ f.isGrounded then
    { f with velocityY := JUMP_FORCE, isGrounded := false, state := .jumping }
  else f

/-- Attack key, gated on `attackCooldown === 0`. -/
def attackStage (atk : Bool) (f : Fighter) : Fighter :=
  if atk ∧ f.attackCooldown = 0 then
    { f with state := .attacking, attackCooldown := 30 }
  else f

/-- Special key, gated on `energy >= 30 && specialCooldown === 0`; spawns one
projectile from the already-mutated fighter, as `createProjectile(newFighter, …)`
does in the source. -/
def specialStage (spc : Bool) (type : PType) (f : Fighter) :
    Fighter × Option Projectile :=
  if spc ∧ 30 ≤ f.energy ∧ f.specialCooldown = 0 then
    let f' := { f with state := FState.special, energy := f.energy - 30,
                       specialCooldown := 60 }
    (f', some (createProjectile f' type))
  else (f, none)

/-- Block key, checked last, unconditionally overwriting `state`. -/
def blockStage (blk : Bool) (f : Fighter) : Fighter :=
  if blk then { f with state := FState.blocking } else f

/-- The input-rule block shared by both players; the two per-player branches of
the source are textually identical up to the key bindings and the signature
projectile type, which are passed here as parameters. -/
def inputFor (mvL mvR jmp atk spc blk : Bool) (type : PType) (f : Fighter) :
    Fighter × Option Projectile :=
  let f1 := moveStage mvL mvR f
  let f2 := jumpStage jmp f1
  let f3 := attackStage atk f2
  let fs := specialStage spc type f3
  (blockStage blk fs.1, fs.2)

/-- Player 1 key bindings (q d z f g s, ice projectile). -/
def inputP1 (k : Keys) (f : Fighter) : Fighter × Option Projectile :=
  inputFor k.keyQ k.keyD k.keyZ k.keyF k.keyG k.keyS .ice f

/-- Player 2 key bindings (arrows n m, fireball projectile). -/
def inputP2 (k : Keys) (f : Fighter) : Fighter × Option Projectile :=
  inputFor k.arrowLeft k.arrowRight k.arrowUp k.keyN k.keyM k.arrowDown .fireball f

/-- Input handling, executed only when both (already decremented) stun timers
are zero; stunned fighters ignore the key snapshot entirely. -/
def handleInput (k : Keys) (f : Fighter) : Fighter × Option Projectile :=
  if f.hitStun = 0 ∧ f.blockStun = 0 then
    if f.id = 1 then inputP1 k f else inputP2 k f
  else (f, none)

/-- Physics tail of the per-fighter update: gravity, position integration,
ground clamping and horizontal screen bounds. -/
def applyPhysics (f : Fighter) : Fighter :=
  let f1 := if ¬f.isGrounded then { f with velocityY := f.velocityY + GRAVITY } else f
  let f2 := { f1 with x := f1.x + f1.velocityX, y := f1.y + f1.velocityY }
  let f3 :=
    if GROUND_Y - f2.height ≤ f2.y then
      { f2 with y := GROUND_Y - f2.height, velocityY := 0, isGrounded := true,
                state := if f2.state = .jumping then FState.idle else f2.state }
    else f2
  { f3 with x := max 0 (min (CANVAS_WIDTH - f3.width) f3.x) }

/-- Whole per-fighter update of one tick (the body of the `prevFighters.map`),
returning the updated fighter and the projectile it spawned, if any. -/
def updateFighter (k : Keys) (f : Fighter) : Fighter × Option Projectile :=
  let f1 := tickTimers f
  let fs := handleInput k f1
  (applyPhysics fs.1, fs.2)

/-- Global pieces of state written by combat resolution (`setWinner`,
`setGameState`, `setScores`). -/
structure Globals where
  winner : Option String
  phase : Phase
  player1 : ℤ
  player2 : ℤ
deriving DecidableEq

/-- The `handleAttack` callback: blocked when the defender is `blocking` with
opposed facing (block stun, energy cost, no health loss); otherwise a full hit
(clamped damage, hit stun, state `hit`, combo, knockback) with the win check
on the clamped health. -/
def handleAttack (attacker defender : Fighter) (g : Globals) :
    Fighter × Fighter × Globals :=
  if defender.state = .blocking ∧
      ((attacker.facing = .right ∧ defender.facing = .left) ∨
       (attacker.facing = .left ∧ defender.facing = .right)) then
    (attacker,
     { defender with blockStun := 15, energy := max 0 (defender.energy - 5) },
     g)
  else
    let defender' :=
      { defender with health := max 0 (defender.health - ATTACK_DAMAGE),
                      hitStun := 20, state := FState.hit,
                      velocityX := if attacker.facing = .right then 3 else -3 }
    let attacker' := { attacker with combo := attacker.combo + 1 }
    if defender'.health ≤ 0 then
      (attacker', defender',
       { winner := some attacker'.name, phase := Phase.gameOver,
         player1 := if attacker'.id = 1 then g.player1 + 1 else g.player1,
         player2 := if attacker'.id = 1 then g.player2 else g.player2 })
    else (attacker', defender', g)

/-- The melee hitbox (`attackRange`): 40 units in front of the attacker,
spanning its height. -/
def attackRange (f : Fighter) : JsRect :=
  { x := if f.facing = .right then f.x + f.width else f.x - 40,
    y := f.y, width := some 40, height := some f.height }

/-- One of the two symmetric melee checks of `updateGame`: the attacker must be
in state `attacking` with `attackCooldown === 29` and its hitbox must overlap
the defender; only then is `handleAttack` invoked. -/
def meleeCheck (attacker defender : Fighter) (g : Globals) :
    Fighter × Fighter × Globals :=
  if attacker.state = .attacking ∧ attacker.attackCooldown = 29 ∧
      checkCollision (attackRange attacker) defender.rect then
    handleAttack attacker defender g
  else (attacker, defender, g)

/-- Melee pass of the tick: fighter 1 is checked first, then fighter 2 against
the already-mutated fighters. -/
def meleeStep (f1 f2 : Fighter) (g : Globals) : Fighter × Fighter × Globals :=
  let s1 := meleeCheck f1 f2 g
  let s2 := meleeCheck s1.2.1 s1.1 s1.2.2
  (s2.2.1, s2.1, s2.2.2)

/-- Effect of a projectile contact on the target fighter: stun and clamped
damage unless the target is `blocking`; the win condition is not consulted
here in the source. -/
def projOnHit (p : Projectile) (f : Fighter) : Fighter :=
  if f.state ≠ .blocking then
    { f with health := max 0 (f.health - p.damage), hitStun := 25,
             state := FState.hit }
  else f

/-- Retention test of the projectile filter: strictly inside the arena extended
by the 50-unit margin on both sides. -/
def projInBounds (p : Projectile) : Bool :=
  decide (-50 < p.x) && decide (p.x < CANVAS_WIDTH + 50)

/-- Per-projectile advance of `p.x += velocityX; p.y += velocityY` plus the
animation counter. -/
def projAdvance (p : Projectile) : Projectile :=
  { p with x := p.x + p.velocityX, y := p.y + p.velocityY,
           animationFrame := p.animationFrame + 1 }

/-- One iteration of the projectile filter: advance, find the fighter whose id
differs from the owner (`fighters.find`), test `checkCollision` against it
(on the width-less projectile rectangle), resolve a hit by dropping the
projectile, otherwise keep it exactly while in bounds. -/
def projStepOne (f1 f2 : Fighter) (p : Projectile) :
    Fighter × Fighter × Option Projectile :=
  let p' := projAdvance p
  let keep := if projInBounds p' then some p' else none
  if f1.id ≠ p'.owner then
    if checkCollision p'.rect f1.rect then (projOnHit p' f1, f2, none)
    else (f1, f2, keep)
  else if f2.id ≠ p'.owner then
    if checkCollision p'.rect f2.rect then (f1, projOnHit p' f2, none)
    else (f1, f2, keep)
  else (f1, f2, keep)

/-- Projectile pass of the tick: the filter walks the live list in order,
threading the fighters it may mutate. -/
def projStep (f1 f2 : Fighter) : List Projectile →
    Fighter × Fighter × List Projectile
  | [] => (f1, f2, [])
  | p :: ps =>
    let s := projStepOne f1 f2 p
    let rest := projStep s.1 s.2.1 ps
    (rest.1, rest.2.1, s.2.2.toList ++ rest.2.2)

/-- World state touched by one simulation tick (particles omitted, see the
header comment). -/
structure Game where
  phase : Phase
  winner : Option String
  fighter1 : Fighter
  fighter2 : Fighter
  projectiles : List Projectile
  player1Score : ℤ
  player2Score : ℤ
deriving DecidableEq

/-- One full simulation tick (`updateGame`): a no-op unless the phase is
`playing`; otherwise both per-fighter updates (appending any spawned
projectiles in player order), the melee pass, and the projectile pass. -/
def updateGame (k : Keys) (g : Game) : Game :=
  if g.phase ≠ Phase.playing then g
  else
    let u1 := updateFighter k g.fighter1
    let u2 := updateFighter k g.fighter2
    let m := meleeStep u1.1 u2.1
      { winner := g.winner, phase := g.phase,
        player1 := g.player1Score, player2 := g.player2Score }
    let ps := g.projectiles ++ u1.2.toList ++ u2.2.toList
    let pr := projStep m.1 m.2.1 ps
    { phase := m.2.2.phase, winner := m.2.2.winner,
      fighter1 := pr.1, fighter2 := pr.2.1, projectiles := pr.2.2,
      player1Score := m.2.2.player1, player2Score := m.2.2.player2 }

/-- Fighter 1 of `initializeFighters`. -/
def fighter1Init : Fighter :=
  { id := 1, x := 200, y := GROUND_Y - 80, width := 60, height := 80,
    velocityX := 0, velocityY := 0, health := 100, maxHealth := 100,
    energy := 100, maxEnergy := 100, facing := .right, state := .idle,
    color := "#3B82F6", name := "Sub-Zero", isGrounded := true,
    attackCooldown := 0, specialCooldown := 0, hitStun := 0, blockStun := 0,
    combo := 0, animationFrame := 0, animationTimer := 0 }

/-- Fighter 2 of `initializeFighters`. -/
def fighter2Init : Fighter :=
  { fighter1Init with
    id := 2
    x := CANVAS_WIDTH - 260
    facing := .left
    color := "#EF4444"
    name := "Scorpion" }

/-! Concrete inputs used by witnesses and counterexamples. -/

/-- Key snapshot with no key held. -/
def noKeys : Keys :=
  { keyQ := false, keyD := false, keyZ := false, keyF := false, keyG := false,
    keyS := false, arrowLeft := false, arrowRight := false, arrowUp := false,
    arrowDown := false, keyN := false, keyM := false }

/-- Globals at round start. -/
def globalsInit : Globals :=
  { winner := none, phase := .playing, player1 := 0, player2 := 0 }

/-- World at round start. -/
def gInit : Game :=
  { phase := .playing, winner := none, fighter1 := fighter1Init,
    fighter2 := fighter2Init, projectiles := [], player1Score := 0,
    player2Score := 0 }

/-! Field bookkeeping lemmas for the stages of the per-fighter update. -/

lemma tickTimers_attackCooldown (f : Fighter) :
    (tickTimers f).attackCooldown =
      if 0 < f.attackCooldown then f.attackCooldown - 1 else f.attackCooldown := rfl

lemma tickTimers_specialCooldown (f : Fighter) :
    (tickTimers f).specialCooldown =
      if 0 < f.specialCooldown then f.specialCooldown - 1 else f.specialCooldown := rfl

lemma tickTimers_hitStun (f : Fighter) :
    (tickTimers f).hitStun =
      if 0 < f.hitStun then f.hitStun - 1 else f.hitStun := rfl

lemma tickTimers_blockStun (f : Fighter) :
    (tickTimers f).blockStun =
      if 0 < f.blockStun then f.blockStun - 1 else f.blockStun := rfl

lemma tickTimers_energy (f : Fighter) :
    (tickTimers f).energy =
      if f.energy < f.maxEnergy then min f.maxEnergy (f.energy + 0.5)
      else f.energy := rfl

lemma tickTimers_velocityX (f : Fighter) : (tickTimers f).velocityX = f.velocityX := rfl

lemma tickTimers_health (f : Fighter) : (tickTimers f).health = f.health := rfl

lemma tickTimers_id (f : Fighter) : (tickTimers f).id = f.id := rfl

lemma tickTimers_state_ne_attacking (f : Fighter) (h : f.state ≠ .attacking) :
    (tickTimers f).state ≠ .attacking := by
  unfold tickTimers
  dsimp only
  split_ifs <;> simp_all

lemma applyFriction_velocityX (f : Fighter) :
    (applyFriction f).velocityX =
      if |f.velocityX * 0.8| < 0.1 then 0 else f.velocityX * 0.8 := by
  unfold applyFriction; try dsimp only
  split_ifs <;> rfl

lemma moveStage_attackCooldown (l r : Bool) (f : Fighter) :
    (moveStage l r f).attackCooldown = f.attackCooldown := by
  unfold moveStage applyFriction; try dsimp only
  split_ifs <;> rfl

lemma moveStage_specialCooldown (l r : Bool) (f : Fighter) :
    (moveStage l r f).specialCooldown = f.specialCooldown := by
  unfold moveStage applyFriction; try dsimp only
  split_ifs <;> rfl

lemma moveStage_energy (l r : Bool) (f : Fighter) :
    (moveStage l r f).energy = f.energy := by
  unfold moveStage applyFriction; try dsimp only
  split_ifs <;> rfl

lemma moveStage_maxEnergy (l r : Bool) (f : Fighter) :
    (moveStage l r f).maxEnergy = f.maxEnergy := by
  unfold moveStage applyFriction; try dsimp only
  split_ifs <;> rfl

lemma moveStage_health (l r : Bool) (f : Fighter) :
    (moveStage l r f).health = f.health := by
  unfold moveStage applyFriction; try dsimp only
  split_ifs <;> rfl

lemma moveStage_maxHealth (l r : Bool) (f : Fighter) :
    (moveStage l r f).maxHealth = f.maxHealth := by
  unfold moveStage applyFriction; try dsimp only
  split_ifs <;> rfl

lemma moveStage_none (l r : Bool) (f : Fighter) (hl : l = false) (hr : r = false) :
    moveStage l r f = applyFriction f := by
  simp [moveStage, hl, hr]

lemma moveStage_state_ne_attacking (l r : Bool) (f : Fighter)
    (h : f.state ≠ .attacking) : (moveStage l r f).state ≠ .attacking := by
  unfold moveStage applyFriction
  dsimp only
  split_ifs <;> simp_all

lemma jumpStage_attackCooldown (j : Bool) (f : Fighter) :
    (jumpStage j f).attackCooldown = f.attackCooldown := by
  unfold jumpStage; try dsimp only
  split_ifs <;> rfl

lemma jumpStage_specialCooldown (j : Bool) (f : Fighter) :
    (jumpStage j f).specialCooldown = f.specialCooldown := by
  unfold jumpStage; try dsimp only
  split_ifs <;> rfl

lemma jumpStage_energy (j : Bool) (f : Fighter) :
    (jumpStage j f).energy = f.energy := by
  unfold jumpStage; try dsimp only
  split_ifs <;> rfl

lemma jumpStage_maxEnergy (j : Bool) (f : Fighter) :
    (jumpStage j f).maxEnergy = f.maxEnergy := by
  unfold jumpStage; try dsimp only
  split_ifs <;> rfl

lemma jumpStage_health (j : Bool) (f : Fighter) :
    (jumpStage j f).health = f.health := by
  unfold jumpStage; try dsimp only
  split_ifs <;> rfl

lemma jumpStage_maxHealth (j : Bool) (f : Fighter) :
    (jumpStage j f).maxHealth = f.maxHealth := by
  unfold jumpStage; try dsimp only
  split_ifs <;> rfl

lemma jumpStage_velocityX (j : Bool) (f : Fighter) :
    (jumpStage j f).velocityX = f.velocityX := by
  unfold jumpStage; try dsimp only
  split_ifs <;> rfl

lemma jumpStage_state_ne_attacking (j : Bool) (f : Fighter)
    (h : f.state ≠ .attacking) : (jumpStage j f).state ≠ .attacking := by
  unfold jumpStage; split_ifs <;> simp_all

lemma jumpStage_id_false (f : Fighter) : jumpStage false f = f := by
  simp [jumpStage]

lemma attackStage_attackCooldown (a : Bool) (f : Fighter) :
    (attackStage a f).attackCooldown =
      if a ∧ f.attackCooldown = 0 then 30 else f.attackCooldown := by
  unfold attackStage; try dsimp only
  split_ifs <;> rfl

lemma attackStage_state (a : Bool) (f : Fighter) :
    (attackStage a f).state =
      if a ∧ f.attackCooldown = 0 then FState.attacking else f.state := by
  unfold attackStage; try dsimp only
  split_ifs <;> rfl

lemma attackStage_specialCooldown (a : Bool) (f : Fighter) :
    (attackStage a f).specialCooldown = f.specialCooldown := by
  unfold attackStage; try dsimp only
  split_ifs <;> rfl

lemma attackStage_energy (a : Bool) (f : Fighter) :
    (attackStage a f).energy = f.energy := by
  unfold attackStage; try dsimp only
  split_ifs <;> rfl

lemma attackStage_maxEnergy (a : Bool) (f : Fighter) :
    (attackStage a f).maxEnergy = f.maxEnergy := by
  unfold attackStage; try dsimp only
  split_ifs <;> rfl

lemma attackStage_health (a : Bool) (f : Fighter) :
    (attackStage a f).health = f.health := by
  unfold attackStage; try dsimp only
  split_ifs <;> rfl

lemma attackStage_maxHealth (a : Bool) (f : Fighter) :
    (attackStage a f).maxHealth = f.maxHealth := by
  unfold attackStage; try dsimp only
  split_ifs <;> rfl

lemma attackStage_velocityX (a : Bool) (f : Fighter) :
    (attackStage a f).velocityX = f.velocityX := by
  unfold attackStage; try dsimp only
  split_ifs <;> rfl

lemma attackStage_id_false (f : Fighter) : attackStage false f = f := by
  simp [attackStage]

lemma specialStage_fst_attackCooldown (s : Bool) (pt : PType) (f : Fighter) :
    (specialStage s pt f).1.attackCooldown = f.attackCooldown := by
  unfold specialStage; try dsimp only
  split_ifs <;> rfl

lemma specialStage_fst_energy (s : Bool) (pt : PType) (f : Fighter) :
    (specialStage s pt f).1.energy =
      if s ∧ 30 ≤ f.energy ∧ f.specialCooldown = 0 then f.energy - 30
      else f.energy := by
  unfold specialStage; try dsimp only
  split_ifs <;> rfl

lemma specialStage_fst_specialCooldown (s : Bool) (pt : PType) (f : Fighter) :
    (specialStage s pt f).1.specialCooldown =
      if s ∧ 30 ≤ f.energy ∧ f.specialCooldown = 0 then 60
      else f.specialCooldown := by
  unfold specialStage; try dsimp only
  split_ifs <;> rfl

lemma specialStage_fst_state (s : Bool) (pt : PType) (f : Fighter) :
    (specialStage s pt f).1.state =
      if s ∧ 30 ≤ f.energy ∧ f.specialCooldown = 0 then FState.special
      else f.state := by
  unfold specialStage; try dsimp only
  split_ifs <;> rfl

lemma specialStage_fst_maxEnergy (s : Bool) (pt : PType) (f : Fighter) :
    (specialStage s pt f).1.maxEnergy = f.maxEnergy := by
  unfold specialStage; try dsimp only
  split_ifs <;> rfl

lemma specialStage_fst_health (s : Bool) (pt : PType) (f : Fighter) :
    (specialStage s pt f).1.health = f.health := by
  unfold specialStage; try dsimp only
  split_ifs <;> rfl

lemma specialStage_fst_maxHealth (s : Bool) (pt : PType) (f : Fighter) :
    (specialStage s pt f).1.maxHealth = f.maxHealth := by
  unfold specialStage; try dsimp only
  split_ifs <;> rfl

lemma specialStage_fst_velocityX (s : Bool) (pt : PType) (f : Fighter) :
    (specialStage s pt f).1.velocityX = f.velocityX := by
  unfold specialStage; try dsimp only
  split_ifs <;> rfl

lemma specialStage_snd_none (s : Bool) (pt : PType) (f : Fighter)
    (h : ¬(s = true ∧ 30 ≤ f.energy ∧ f.specialCooldown = 0)) :
    (specialStage s pt f).2 = none := by
  unfold specialStage
  split_ifs
  rfl

lemma specialStage_snd_isSome (s : Bool) (pt : PType) (f : Fighter)
    (h : s = true ∧ 30 ≤ f.energy ∧ f.specialCooldown = 0) :
    (specialStage s pt f).2.isSome = true := by
  unfold specialStage
  split_ifs
  rfl

lemma blockStage_state (b : Bool) (f : Fighter) :
    (blockStage b f).state = if b then FState.blocking else f.state := by
  unfold blockStage; try dsimp only
  split_ifs <;> rfl

lemma blockStage_attackCooldown (b : Bool) (f : Fighter) :
    (blockStage b f).attackCooldown = f.attackCooldown := by
  unfold blockStage; try dsimp only
  split_ifs <;> rfl

lemma blockStage_specialCooldown (b : Bool) (f : Fighter) :
    (blockStage b f).specialCooldown = f.specialCooldown := by
  unfold blockStage; try dsimp only
  split_ifs <;> rfl

lemma blockStage_energy (b : Bool) (f : Fighter) :
    (blockStage b f).energy = f.energy := by
  unfold blockStage; try dsimp only
  split_ifs <;> rfl

lemma blockStage_maxEnergy (b : Bool) (f : Fighter) :
    (blockStage b f).maxEnergy = f.maxEnergy := by
  unfold blockStage; try dsimp only
  split_ifs <;> rfl

lemma blockStage_health (b : Bool) (f : Fighter) :
    (blockStage b f).health = f.health := by
  unfold blockStage; try dsimp only
  split_ifs <;> rfl

lemma blockStage_maxHealth (b : Bool) (f : Fighter) :
    (blockStage b f).maxHealth = f.maxHealth := by
  unfold blockStage; try dsimp only
  split_ifs <;> rfl

lemma blockStage_velocityX (b : Bool) (f : Fighter) :
    (blockStage b f).velocityX = f.velocityX := by
  unfold blockStage; try dsimp only
  split_ifs <;> rfl

lemma blockStage_id_false (f : Fighter) : blockStage false f = f := by
  simp [blockStage]

lemma applyPhysics_attackCooldown (f : Fighter) :
    (applyPhysics f).attackCooldown = f.attackCooldown := by
  unfold applyPhysics; try dsimp only
  split_ifs <;> rfl

lemma applyPhysics_specialCooldown (f : Fighter) :
    (applyPhysics f).specialCooldown = f.specialCooldown := by
  unfold applyPhysics; try dsimp only
  split_ifs <;> rfl

lemma applyPhysics_energy (f : Fighter) :
    (applyPhysics f).energy = f.energy := by
  unfold applyPhysics; try dsimp only
  split_ifs <;> rfl

lemma applyPhysics_maxEnergy (f : Fighter) :
    (applyPhysics f).maxEnergy = f.maxEnergy := by
  unfold applyPhysics; try dsimp only
  split_ifs <;> rfl

lemma applyPhysics_health (f : Fighter) :
    (applyPhysics f).health = f.health := by
  unfold applyPhysics; try dsimp only
  split_ifs <;> rfl

lemma applyPhysics_maxHealth (f : Fighter) :
    (applyPhysics f).maxHealth = f.maxHealth := by
  unfold applyPhysics; try dsimp only
  split_ifs <;> rfl

lemma applyPhysics_velocityX (f : Fighter) :
    (applyPhysics f).velocityX = f.velocityX := by
  unfold applyPhysics; try dsimp only
  split_ifs <;> rfl

lemma applyPhysics_state_of_ne_jumping (f : Fighter) (h : f.state ≠ .jumping) :
    (applyPhysics f).state = f.state := by
  unfold applyPhysics
  dsimp only
  split_ifs <;> simp_all

lemma applyPhysics_state_ne_attacking (f : Fighter) (h : f.state ≠ .attacking) :
    (applyPhysics f).state ≠ .attacking := by
  unfold applyPhysics
  dsimp only
  split_ifs <;> simp_all

lemma updateFighter_fst (k : Keys) (f : Fighter) :
    (updateFighter k f).1 = applyPhysics (handleInput k (tickTimers f)).1 := rfl

lemma updateFighter_snd (k : Keys) (f : Fighter) :
    (updateFighter k f).2 = (handleInput k (tickTimers f)).2 := rfl

lemma handleInput_stunned (k : Keys) (f : Fighter)
    (h : ¬(f.hitStun = 0 ∧ f.blockStun = 0)) : handleInput k f = (f, none) := by
  unfold handleInput
  exact if_neg h

/-! Composite lemmas about the input block and the per-fighter update. -/

lemma inputFor_fst_attackCooldown (l r j a s b : Bool) (pt : PType) (f : Fighter) :
    (inputFor l r j a s b pt f).1.attackCooldown =
      if a ∧ f.attackCooldown = 0 then 30 else f.attackCooldown := by
  simp only [inputFor, blockStage_attackCooldown, specialStage_fst_attackCooldown,
    attackStage_attackCooldown, jumpStage_attackCooldown, moveStage_attackCooldown]

lemma inputFor_fst_energy (l r j a s b : Bool) (pt : PType) (f : Fighter) :
    (inputFor l r j a s b pt f).1.energy =
      if s ∧ 30 ≤ f.energy ∧ f.specialCooldown = 0 then f.energy - 30
      else f.energy := by
  simp only [inputFor, blockStage_energy, specialStage_fst_energy,
    attackStage_energy, attackStage_specialCooldown, jumpStage_energy,
    jumpStage_specialCooldown, moveStage_energy, moveStage_specialCooldown]

lemma inputFor_fst_specialCooldown (l r j a s b : Bool) (pt : PType) (f : Fighter) :
    (inputFor l r j a s b pt f).1.specialCooldown =
      if s ∧ 30 ≤ f.energy ∧ f.specialCooldown = 0 then 60
      else f.specialCooldown := by
  simp only [inputFor, blockStage_specialCooldown, specialStage_fst_specialCooldown,
    attackStage_energy, attackStage_specialCooldown, jumpStage_energy,
    jumpStage_specialCooldown, moveStage_energy, moveStage_specialCooldown]

lemma inputFor_snd_none (l r j a s b : Bool) (pt : PType) (f : Fighter)
    (h : f.energy < 30) : (inputFor l r j a s b pt f).2 = none := by
  simp only [inputFor]
  apply specialStage_snd_none
  rw [attackStage_energy, jumpStage_energy, moveStage_energy]
  rintro ⟨-, h30, -⟩
  linarith

lemma inputFor_snd_isSome (l r j a b : Bool) (pt : PType) (f : Fighter)
    (he : 30 ≤ f.energy) (hc : f.specialCooldown = 0) :
    (inputFor l r j a true b pt f).2.isSome = true := by
  simp only [inputFor]
  apply specialStage_snd_isSome
  rw [attackStage_energy, jumpStage_energy, moveStage_energy,
      attackStage_specialCooldown, jumpStage_specialCooldown,
      moveStage_specialCooldown]
  exact ⟨rfl, he, hc⟩

lemma inputFor_fst_state_blocking (l r j a s : Bool) (pt : PType) (f : Fighter) :
    (inputFor l r j a s true pt f).1.state = FState.blocking := by
  simp only [inputFor, blockStage_state, if_true]

lemma inputFor_fst_state_ne_attacking (l r j a s b : Bool) (pt : PType)
    (f : Fighter) (hac : f.attackCooldown ≠ 0) (hst : f.state ≠ .attacking) :
    (inputFor l r j a s b pt f).1.state ≠ .attacking := by
  have h3 : (attackStage a (jumpStage j (moveStage l r f))).state ≠ .attacking := by
    rw [attackStage_state, jumpStage_attackCooldown, moveStage_attackCooldown]
    split_ifs with h
    · exact absurd h.2 hac
    · exact jumpStage_state_ne_attacking j _ (moveStage_state_ne_attacking l r f hst)
  simp only [inputFor, blockStage_state, specialStage_fst_state]
  split_ifs <;> simp_all

lemma inputFor_fst_velocityX_noMove (j a s b : Bool) (pt : PType) (f : Fighter) :
    (inputFor false false j a s b pt f).1.velocityX =
      if |f.velocityX * 0.8| < 0.1 then 0 else f.velocityX * 0.8 := by
  simp only [inputFor, blockStage_velocityX, specialStage_fst_velocityX,
    attackStage_velocityX, jumpStage_velocityX, moveStage_none _ _ _ rfl rfl,
    applyFriction_velocityX]

lemma handleInput_fst_attackCooldown_cases (k : Keys) (f : Fighter) :
    (handleInput k f).1.attackCooldown = f.attackCooldown ∨
    (handleInput k f).1.attackCooldown = 30 := by
  unfold handleInput inputP1 inputP2
  split_ifs
  · rw [inputFor_fst_attackCooldown]
    split_ifs
    · right; rfl
    · left; rfl
  · rw [inputFor_fst_attackCooldown]
    split_ifs
    · right; rfl
    · left; rfl
  · left; rfl

lemma handleInput_fst_attackCooldown_of_ne (k : Keys) (f : Fighter)
    (h : f.attackCooldown ≠ 0) :
    (handleInput k f).1.attackCooldown = f.attackCooldown := by
  unfold handleInput inputP1 inputP2
  split_ifs <;> simp [inputFor_fst_attackCooldown, h]

lemma updateFighter_stunned (k : Keys) (f : Fighter)
    (h : 1 < f.hitStun ∨ 1 < f.blockStun) :
    updateFighter k f = (applyPhysics (tickTimers f), none) := by
  have hs : ¬((tickTimers f).hitStun = 0 ∧ (tickTimers f).blockStun = 0) := by
    rw [tickTimers_hitStun, tickTimers_blockStun]
    split_ifs <;> omega
  unfold updateFighter
  dsimp only
  rw [handleInput_stunned k _ hs]

lemma updateFighter_state_ne_attacking (k : Keys) (f : Fighter)
    (h1 : f.state ≠ .attacking) (h2 : (tickTimers f).attackCooldown ≠ 0) :
    (updateFighter k f).1.state ≠ .attacking := by
  rw [updateFighter_fst]
  apply applyPhysics_state_ne_attacking
  have ht := tickTimers_state_ne_attacking f h1
  unfold handleInput inputP1 inputP2
  split_ifs
  · exact inputFor_fst_state_ne_attacking _ _ _ _ _ _ _ _ h2 ht
  · exact inputFor_fst_state_ne_attacking _ _ _ _ _ _ _ _ h2 ht
  · exact ht

/-! Health and energy bounds invariant (claim C2) and its preservation. -/

/-- Bounds invariant of one fighter: health within `[0, maxHealth]` and energy
within `[0, maxEnergy]`. -/
def FInv (f : Fighter) : Prop :=
  0 ≤ f.health ∧ f.health ≤ f.maxHealth ∧ 0 ≤ f.energy ∧ f.energy ≤ f.maxEnergy

instance (f : Fighter) : Decidable (FInv f) := by
  unfold FInv; infer_instance

lemma FInv_congr {f g : Fighter} (e1 : g.health = f.health)
    (e2 : g.maxHealth = f.maxHealth) (e3 : g.energy = f.energy)
    (e4 : g.maxEnergy = f.maxEnergy) (h : FInv f) : FInv g := by
  unfold FInv at *
  rw [e1, e2, e3, e4]
  exact h

lemma FInv_tickTimers {f : Fighter} (h : FInv f) : FInv (tickTimers f) := by
  obtain ⟨h1, h2, h3, h4⟩ := h
  refine ⟨h1, h2, ?_, ?_⟩ <;> rw [tickTimers_energy] <;> split_ifs
  · exact le_min (by linarith) (by linarith)
  · exact h3
  · exact min_le_left _ _
  · exact h4

lemma FInv_specialStage (s : Bool) (pt : PType) {f : Fighter} (h : FInv f) :
    FInv (specialStage s pt f).1 := by
  obtain ⟨h1, h2, h3, h4⟩ := h
  unfold FInv
  rw [specialStage_fst_health, specialStage_fst_maxHealth,
      specialStage_fst_energy, specialStage_fst_maxEnergy]
  split_ifs with hg
  · exact ⟨h1, h2, by linarith [hg.2.1], by linarith⟩
  · exact ⟨h1, h2, h3, h4⟩

lemma FInv_inputFor (l r j a s b : Bool) (pt : PType) {f : Fighter}
    (h : FInv f) : FInv (inputFor l r j a s b pt f).1 := by
  simp only [inputFor]
  apply FInv_congr (blockStage_health _ _) (blockStage_maxHealth _ _)
    (blockStage_energy _ _) (blockStage_maxEnergy _ _)
  apply FInv_specialStage
  apply FInv_congr (attackStage_health _ _) (attackStage_maxHealth _ _)
    (attackStage_energy _ _) (attackStage_maxEnergy _ _)
  apply FInv_congr (jumpStage_health _ _) (jumpStage_maxHealth _ _)
    (jumpStage_energy _ _) (jumpStage_maxEnergy _ _)
  exact FInv_congr (moveStage_health _ _ _) (moveStage_maxHealth _ _ _)
    (moveStage_energy _ _ _) (moveStage_maxEnergy _ _ _) h

lemma FInv_handleInput (k : Keys) {f : Fighter} (h : FInv f) :
    FInv (handleInput k f).1 := by
  unfold handleInput inputP1 inputP2
  split_ifs
  · exact FInv_inputFor _ _ _ _ _ _ _ h
  · exact FInv_inputFor _ _ _ _ _ _ _ h
  · exact h

lemma FInv_updateFighter (k : Keys) {f : Fighter} (h : FInv f) :
    FInv (updateFighter k f).1 := by
  rw [updateFighter_fst]
  exact FInv_congr (applyPhysics_health _) (applyPhysics_maxHealth _)
    (applyPhysics_energy _) (applyPhysics_maxEnergy _)
    (FInv_handleInput k (FInv_tickTimers h))

lemma FInv_handleAttack (a d : Fighter) (g : Globals) (ha : FInv a)
    (hd : FInv d) :
    FInv (handleAttack a d g).1 ∧ FInv (handleAttack a d g).2.1 := by
  obtain ⟨a1, a2, a3, a4⟩ := ha
  obtain ⟨d1, d2, d3, d4⟩ := hd
  have hA : (0 : ℚ) ≤ ATTACK_DAMAGE := by norm_num [ATTACK_DAMAGE]
  unfold handleAttack FInv
  dsimp only
  split_ifs <;>
    refine ⟨⟨a1, a2, a3, a4⟩, ?_, ?_, ?_, ?_⟩ <;>
      first
        | exact d1 | exact d2 | exact d3 | exact d4
        | exact le_max_left _ _
        | exact max_le (by linarith) (by linarith)

lemma FInv_meleeCheck (a d : Fighter) (g : Globals) (ha : FInv a) (hd : FInv d) :
    FInv (meleeCheck a d g).1 ∧ FInv (meleeCheck a d g).2.1 := by
  unfold meleeCheck
  split_ifs
  · exact FInv_handleAttack a d g ha hd
  · exact ⟨ha, hd⟩

lemma FInv_meleeStep (f1 f2 : Fighter) (g : Globals) (h1 : FInv f1)
    (h2 : FInv f2) :
    FInv (meleeStep f1 f2 g).1 ∧ FInv (meleeStep f1 f2 g).2.1 := by
  unfold meleeStep
  dsimp only
  have s1 := FInv_meleeCheck f1 f2 g h1 h2
  have s2 := FInv_meleeCheck (meleeCheck f1 f2 g).2.1 (meleeCheck f1 f2 g).1
    (meleeCheck f1 f2 g).2.2 s1.2 s1.1
  exact ⟨s2.2, s2.1⟩

/-! Projectile pass: the duck-typed collision test never fires. -/

/-- Collision of a projectile rectangle with anything is false: the second
conjunct of `checkCollision` adds the absent `width` (NaN) and compares. -/
lemma checkCollision_projRect (p : Projectile) (r : JsRect) :
    checkCollision p.rect r = false := by
  unfold checkCollision Projectile.rect jsAdd jsGt jsLt
  simp

lemma projStepOne_fst (f1 f2 : Fighter) (p : Projectile) :
    (projStepOne f1 f2 p).1 = f1 ∧ (projStepOne f1 f2 p).2.1 = f2 := by
  unfold projStepOne
  simp only [checkCollision_projRect]
  split_ifs <;> first
    | exact ⟨rfl, rfl⟩
    | simp_all

lemma projStep_fighters (f1 f2 : Fighter) (ps : List Projectile) :
    (projStep f1 f2 ps).1 = f1 ∧ (projStep f1 f2 ps).2.1 = f2 := by
  induction ps generalizing f1 f2 with
  | nil => exact ⟨rfl, rfl⟩
  | cons p ps ih =>
    obtain ⟨e1, e2⟩ := projStepOne_fst f1 f2 p
    unfold projStep
    dsimp only
    rw [(ih _ _).1, (ih _ _).2, e1, e2]
    exact ⟨rfl, rfl⟩

lemma tickTimers_state_of_ne_hit (f : Fighter) (h : f.state ≠ .hit) :
    (tickTimers f).state = f.state := by
  unfold tickTimers
  dsimp only
  split_ifs <;> simp_all

lemma applyFriction_state (f : Fighter) :
    (applyFriction f).state =
      if |f.velocityX * 0.8| < 0.1 then
        (if f.state = .walking then FState.idle else f.state)
      else f.state := by
  unfold applyFriction; try dsimp only
  split_ifs <;> rfl

lemma specialStage_id_false (pt : PType) (f : Fighter) :
    specialStage false pt f = (f, none) := by
  simp [specialStage]

lemma inputFor_allFalse (pt : PType) (f : Fighter) :
    inputFor false false false false false false pt f = (applyFriction f, none) := by
  simp [inputFor, moveStage_none _ _ _ rfl rfl, jumpStage_id_false,
    attackStage_id_false, specialStage_id_false, blockStage_id_false]

/-- Move keys of the fighter's own player are not held. -/
def noMoveKeys (k : Keys) (f : Fighter) : Prop :=
  (f.id = 1 → k.keyQ = false ∧ k.keyD = false) ∧
  (f.id ≠ 1 → k.arrowLeft = false ∧ k.arrowRight = false)

/-- Jump, attack, special and block keys of the fighter's own player are not
held. -/
def noActionKeys (k : Keys) (f : Fighter) : Prop :=
  (f.id = 1 → k.keyZ = false ∧ k.keyF = false ∧ k.keyG = false ∧ k.keyS = false) ∧
  (f.id ≠ 1 → k.arrowUp = false ∧ k.keyN = false ∧ k.keyM = false ∧
    k.arrowDown = false)

/-- Attack key of the fighter's own player. -/
def attackKey (k : Keys) (f : Fighter) : Bool :=
  if f.id = 1 then k.keyF else k.keyN

/-- Special key of the fighter's own player. -/
def specialKey (k : Keys) (f : Fighter) : Bool :=
  if f.id = 1 then k.keyG else k.keyM

/-- Block key of the fighter's own player. -/
def blockKey (k : Keys) (f : Fighter) : Bool :=
  if f.id = 1 then k.keyS else k.arrowDown

instance (k : Keys) (f : Fighter) : Decidable (noMoveKeys k f) := by
  unfold noMoveKeys; infer_instance

instance (k : Keys) (f : Fighter) : Decidable (noActionKeys k f) := by
  unfold noActionKeys; infer_instance

/-! Concrete states exercised by witnesses and counterexamples. -/

/-- Fighter 1 two ticks into its attack cooldown. -/
def fighterCd2 : Fighter := { fighter1Init with attackCooldown := 2 }

/-- Key snapshot holding only the player-1 move-right key. -/
def keyRight : Keys := { noKeys with keyD := true }

/-- Fighter 1 on the last tick of hit stun. -/
def stunnedOneTick : Fighter := { fighter1Init with hitStun := 1, state := .hit }

/-- Fighter 1 with two ticks of hit stun left. -/
def stunnedTwoTicks : Fighter := { fighter1Init with hitStun := 2, state := .hit }

/-- Fighter 1 mid knockback: stunned for five more ticks while sliding. -/
def stunnedMover : Fighter :=
  { fighter1Init with hitStun := 5, state := .hit, velocityX := 3 }

/-- Fighter 1 walking slowly enough that one friction step snaps to zero. -/
def slowWalker : Fighter :=
  { fighter1Init with state := .walking, velocityX := 0.1 }

/-! The ten claims. -/

/-- Claim C1: an attack activation (attack key processed with
`attackCooldown === 0`) deals melee damage at most once, exactly on the one
tick where `attackCooldown = 29` with state still `attacking`: the post-tick
cooldown reads 29 exactly when the pre-tick cooldown was 30 (the value set by
the activation), a running cooldown at value at least 2 just decrements no
matter which keys are pressed (so a new press neither resets it nor
re-arms damage), and the melee check is skipped entirely unless the attacker
shows `attacking` with cooldown 29. -/
theorem claim_C1 (k : Keys) (f : Fighter) :
    ((updateFighter k f).1.attackCooldown = 29 ↔ f.attackCooldown = 30) ∧
    (2 ≤ f.attackCooldown →
      (updateFighter k f).1.attackCooldown = f.attackCooldown - 1) ∧
    (∀ df g, ¬(f.state = FState.attacking ∧ f.attackCooldown = 29) →
      meleeCheck f df g = (f, df, g)) := by
  have e : ∀ (k' : Keys) (f' : Fighter), (updateFighter k' f').1.attackCooldown
      = (handleInput k' (tickTimers f')).1.attackCooldown := by
    intro k' f'
    rw [updateFighter_fst, applyPhysics_attackCooldown]
  refine ⟨⟨?_, ?_⟩, ?_, ?_⟩
  · intro h29
    rcases handleInput_fst_attackCooldown_cases k (tickTimers f) with hc | hc
    · rw [e, hc, tickTimers_attackCooldown] at h29
      split_ifs at h29 <;> omega
    · rw [e, hc] at h29
      exact absurd h29 (by decide)
  · intro h30
    have ht : (tickTimers f).attackCooldown = 29 := by
      rw [tickTimers_attackCooldown, h30]; norm_num
    rw [e, handleInput_fst_attackCooldown_of_ne _ _ (by rw [ht]; decide), ht]
  · intro h2le
    have ht : (tickTimers f).attackCooldown = f.attackCooldown - 1 := by
      rw [tickTimers_attackCooldown]; split_ifs <;> omega
    rw [e, handleInput_fst_attackCooldown_of_ne _ _ (by rw [ht]; omega), ht]
  · intro df g hc
    unfold meleeCheck
    rw [if_neg]
    rintro ⟨hA, hB, -⟩
    exact hc ⟨hA, hB⟩

/-- Witness for C1 at concrete inputs: a cooldown of 2 decrements to 1 under
any key press, and an idle fighter triggers no melee check. -/
theorem claim_C1_witness :
    (updateFighter noKeys fighterCd2).1.attackCooldown = 1 ∧
    meleeCheck fighter1Init fighter2Init globalsInit
      = (fighter1Init, fighter2Init, globalsInit) := by
  constructor
  · have h := (claim_C1 noKeys fighterCd2).2.1 (by decide)
    rw [h]; decide
  · exact (claim_C1 noKeys fighter1Init).2.2 fighter2Init globalsInit (by decide)

/-- Claim C2: one full tick keeps both fighters' health in `[0, maxHealth]`
and energy in `[0, maxEnergy]`: melee damage, the block energy cost and
projectile damage clamp at 0, and regeneration clamps at the maximum. -/
theorem claim_C2 (k : Keys) (g : Game) (h1 : FInv g.fighter1)
    (h2 : FInv g.fighter2) :
    FInv (updateGame k g).fighter1 ∧ FInv (updateGame k g).fighter2 := by
  unfold updateGame
  split_ifs
  · exact ⟨h1, h2⟩
  · dsimp only
    have u1 := FInv_updateFighter k h1
    have u2 := FInv_updateFighter k h2
    have m := FInv_meleeStep (updateFighter k g.fighter1).1
      (updateFighter k g.fighter2).1
      { winner := g.winner, phase := g.phase, player1 := g.player1Score,
        player2 := g.player2Score } u1 u2
    rw [(projStep_fighters _ _ _).1, (projStep_fighters _ _ _).2]
    exact m

/-- Witness for C2 at the initial world. -/
theorem claim_C2_witness :
    FInv (updateGame noKeys gInit).fighter1 ∧
    FInv (updateGame noKeys gInit).fighter2 :=
  claim_C2 noKeys gInit (by decide) (by decide)

/-- Counterexample to C3 as stated: a fighter entering the tick with
`hitStun = 1` (still positive) has its input processed that tick, because the
stun check runs after the decrement; two key snapshots yield different
velocities. -/
theorem claim_C3_cex :
    0 < stunnedOneTick.hitStun ∧
    (updateFighter keyRight stunnedOneTick).1.velocityX ≠
      (updateFighter noKeys stunnedOneTick).1.velocityX := by
  refine ⟨by decide, ?_⟩
  norm_num [updateFighter, tickTimers, handleInput, inputP1, inputFor,
    moveStage, applyFriction, jumpStage, attackStage, specialStage, blockStage,
    applyPhysics, stunnedOneTick, fighter1Init, keyRight, noKeys, MOVE_SPEED,
    CANVAS_WIDTH, GROUND_Y, GRAVITY, JUMP_FORCE]

/-- Claim C3 amended: a fighter whose hit stun or block stun is still positive
after this tick's decrement (equivalently, at least 2 at the start of the
tick) updates identically under any two input snapshots. -/
theorem claim_C3 (k1 k2 : Keys) (f : Fighter)
    (h : 1 < f.hitStun ∨ 1 < f.blockStun) :
    updateFighter k1 f = updateFighter k2 f := by
  rw [updateFighter_stunned k1 f h, updateFighter_stunned k2 f h]

/-- Witness for amended C3: with two ticks of hit stun left, holding
move-right changes nothing. -/
theorem claim_C3_witness :
    updateFighter keyRight stunnedTwoTicks = updateFighter noKeys stunnedTwoTicks :=
  claim_C3 keyRight noKeys stunnedTwoTicks (Or.inl (by decide))

/-- Counterexample to C4 as stated: a stunned fighter (hitStun 5) with
horizontal velocity 3 keeps exactly velocity 3 — friction is inside the
input-handling block, which stunned fighters skip — whereas the claim
demands multiplication by 0.8. -/
theorem claim_C4_cex :
    0 < stunnedMover.hitStun ∧
    (updateFighter noKeys stunnedMover).1.velocityX = 3 ∧
    stunnedMover.velocityX * 0.8 ≠ 3 := by
  refine ⟨by decide, ?_, ?_⟩
  · rw [updateFighter_stunned noKeys stunnedMover (Or.inl (by decide))]
    dsimp only
    rw [applyPhysics_velocityX, tickTimers_velocityX]
    rfl
  · norm_num [stunnedMover, fighter1Init]

/-- Claim C4 amended: friction (multiply `velocityX` by 0.8, snap below 0.1
to 0, reverting `walking` to `idle`) applies exactly on ticks where the
fighter is not stunned after the decrement and none of its effective move
branches fires; a still-stunned fighter keeps its horizontal velocity
unchanged. -/
theorem claim_C4 (k : Keys) (f : Fighter) :
    ((tickTimers f).hitStun = 0 → (tickTimers f).blockStun = 0 →
      noMoveKeys k f →
      (updateFighter k f).1.velocityX =
        if |f.velocityX * 0.8| < 0.1 then 0 else f.velocityX * 0.8) ∧
    ((1 < f.hitStun ∨ 1 < f.blockStun) →
      (updateFighter k f).1.velocityX = f.velocityX) ∧
    ((tickTimers f).hitStun = 0 → (tickTimers f).blockStun = 0 →
      noMoveKeys k f → noActionKeys k f → f.state = FState.walking →
      |f.velocityX * 0.8| < 0.1 →
      (updateFighter k f).1.velocityX = 0 ∧
      (updateFighter k f).1.state = FState.idle) := by
  refine ⟨?_, ?_, ?_⟩
  · intro hh hb hm
    rw [updateFighter_fst, applyPhysics_velocityX]
    unfold handleInput
    rw [if_pos ⟨hh, hb⟩]
    by_cases hid : (tickTimers f).id = 1
    · rw [if_pos hid]
      unfold inputP1
      obtain ⟨hq, hd⟩ := hm.1 (by rwa [tickTimers_id] at hid)
      rw [hq, hd, inputFor_fst_velocityX_noMove, tickTimers_velocityX]
    · rw [if_neg hid]
      unfold inputP2
      obtain ⟨hq, hd⟩ := hm.2 (by rwa [tickTimers_id] at hid)
      rw [hq, hd, inputFor_fst_velocityX_noMove, tickTimers_velocityX]
  · intro h
    rw [updateFighter_stunned k f h]
    dsimp only
    rw [applyPhysics_velocityX, tickTimers_velocityX]
  · intro hh hb hm ho hw hv
    have hts : (tickTimers f).state = FState.walking := by
      rw [tickTimers_state_of_ne_hit f (by rw [hw]; decide)]; exact hw
    have hv' : |(tickTimers f).velocityX * 0.8| < 0.1 := by
      rw [tickTimers_velocityX]; exact hv
    have key : (handleInput k (tickTimers f)).1 = applyFriction (tickTimers f) := by
      unfold handleInput
      rw [if_pos ⟨hh, hb⟩]
      by_cases hid : (tickTimers f).id = 1
      · rw [if_pos hid]
        unfold inputP1
        obtain ⟨hq, hd⟩ := hm.1 (by rwa [tickTimers_id] at hid)
        obtain ⟨hz, hf, hg, hs⟩ := ho.1 (by rwa [tickTimers_id] at hid)
        rw [hq, hd, hz, hf, hg, hs, inputFor_allFalse]
      · rw [if_neg hid]
        unfold inputP2
        obtain ⟨hq, hd⟩ := hm.2 (by rwa [tickTimers_id] at hid)
        obtain ⟨hz, hf, hg, hs⟩ := ho.2 (by rwa [tickTimers_id] at hid)
        rw [hq, hd, hz, hf, hg, hs, inputFor_allFalse]
    have hfs : (applyFriction (tickTimers f)).state = FState.idle := by
      rw [applyFriction_state, if_pos hv', hts]
      rfl
    constructor
    · rw [updateFighter_fst, applyPhysics_velocityX, key,
        applyFriction_velocityX, tickTimers_velocityX, if_pos hv]
    · rw [updateFighter_fst, key,
        applyPhysics_state_of_ne_jumping _ (by rw [hfs]; decide), hfs]

/-- Witness for amended C4: a slow walker with no keys held snaps to velocity
0 and state `idle`; the stunned slider keeps velocity 3. -/
theorem claim_C4_witness :
    (updateFighter noKeys slowWalker).1.velocityX = 0 ∧
    (updateFighter noKeys slowWalker).1.state = FState.idle ∧
    (updateFighter noKeys stunnedMover).1.velocityX = stunnedMover.velocityX := by
  refine ⟨?_, ?_, ?_⟩
  · exact ((claim_C4 noKeys slowWalker).2.2 (by decide) (by decide) (by decide)
      (by decide) (by decide) (by norm_num [slowWalker, fighter1Init, abs_lt])).1
  · exact ((claim_C4 noKeys slowWalker).2.2 (by decide) (by decide) (by decide)
      (by decide) (by decide) (by norm_num [slowWalker, fighter1Init, abs_lt])).2
  · exact (claim_C4 noKeys stunnedMover).2.1 (Or.inl (by decide))

/-- The melee blocked condition of `handleAttack`: defender blocking with
opposed facing. -/
def blockedCond (attacker defender : Fighter) : Prop :=
  defender.state = FState.blocking ∧
    ((attacker.facing = Facing.right ∧ defender.facing = Facing.left) ∨
     (attacker.facing = Facing.left ∧ defender.facing = Facing.right))

instance (a d : Fighter) : Decidable (blockedCond a d) := by
  unfold blockedCond; infer_instance

lemma handleAttack_eq_blocked (a d : Fighter) (g : Globals)
    (h : blockedCond a d) :
    handleAttack a d g =
      (a, { d with blockStun := 15, energy := max 0 (d.energy - 5) }, g) := by
  unfold blockedCond at h
  unfold handleAttack
  rw [if_pos h]

lemma handleAttack_fst_full (a d : Fighter) (g : Globals)
    (h : ¬blockedCond a d) :
    (handleAttack a d g).1 = { a with combo := a.combo + 1 } := by
  unfold blockedCond at h
  unfold handleAttack
  rw [if_neg h]
  dsimp only
  split_ifs <;> rfl

lemma handleAttack_snd_full (a d : Fighter) (g : Globals)
    (h : ¬blockedCond a d) :
    (handleAttack a d g).2.1 =
      { d with health := max 0 (d.health - ATTACK_DAMAGE), hitStun := 20,
               state := FState.hit,
               velocityX := if a.facing = Facing.right then 3 else -3 } := by
  unfold blockedCond at h
  unfold handleAttack
  rw [if_neg h]
  dsimp only
  split_ifs <;> rfl

/-- Projectile positioned so that, once advanced, its point lies strictly
inside fighter 2's body rectangle; owned by fighter 1. -/
def pInside : Projectile :=
  { id := 9, x := 950, y := 460, velocityX := 8, velocityY := 0,
    damage := SPECIAL_DAMAGE, owner := 1, type := .ice, color := "#00D4FF",
    animationFrame := 0 }

/-- Projectile about to cross the right removal margin. -/
def pFarRight : Projectile := { pInside with x := 1243 }

/-- Fighter 2 in blocking stance. -/
def blockingDefender : Fighter := { fighter2Init with state := .blocking }

/-- Fighter 2 one projectile hit away from zero health. -/
def lowHealthDefender : Fighter := { fighter2Init with health := 10 }

/-- World in which a 25-damage projectile sits inside the 10-health
defender. -/
def gProjKill : Game :=
  { phase := .playing, winner := none, fighter1 := fighter1Init,
    fighter2 := lowHealthDefender, projectiles := [pInside],
    player1Score := 0, player2Score := 0 }

/-- Fighter 1 with too little energy for a special. -/
def lowEnergyFighter : Fighter := { fighter1Init with energy := 20 }

/-- Key snapshot holding only the player-1 special key. -/
def keySpecial : Keys := { noKeys with keyG := true }

/-- Key snapshot holding player-1 attack and block together. -/
def keyAttackBlock : Keys := { noKeys with keyF := true, keyS := true }

/-- Key snapshot holding player-1 special and block together. -/
def keySpecialBlock : Keys := { noKeys with keyG := true, keyS := true }

/-- Both fighters in melee range of each other, both on their damage tick. -/
def dualAttacker1 : Fighter :=
  { fighter1Init with x := 240, state := .attacking, attackCooldown := 29 }

/-- Companion of `dualAttacker1` on fighter 2's side. -/
def dualAttacker2 : Fighter :=
  { fighter2Init with x := 270, state := .attacking, attackCooldown := 29 }

/-- Counterexample to C5 as stated: the advanced projectile point lies strictly
inside the non-blocking defender, yet the defender's health is unchanged —
no 25-damage projectile hit ever lands, because the overlap test on the
width-less projectile is constant false. -/
theorem claim_C5_cex :
    fighter2Init.x < (projAdvance pInside).x ∧
    (projAdvance pInside).x < fighter2Init.x + fighter2Init.width ∧
    fighter2Init.y < (projAdvance pInside).y ∧
    (projAdvance pInside).y < fighter2Init.y + fighter2Init.height ∧
    fighter2Init.state ≠ FState.blocking ∧
    (projStepOne fighter1Init fighter2Init pInside).2.1.health =
      fighter2Init.health := by
  refine ⟨?_, ?_, ?_, ?_, by decide, ?_⟩
  · norm_num [projAdvance, pInside, fighter2Init, fighter1Init, CANVAS_WIDTH,
      GROUND_Y]
  · norm_num [projAdvance, pInside, fighter2Init, fighter1Init, CANVAS_WIDTH,
      GROUND_Y]
  · norm_num [projAdvance, pInside, fighter2Init, fighter1Init, CANVAS_WIDTH,
      GROUND_Y]
  · norm_num [projAdvance, pInside, fighter2Init, fighter1Init, CANVAS_WIDTH,
      GROUND_Y]
  · rw [(projStepOne_fst fighter1Init fighter2Init pInside).2]

/-- Claim C5 amended: a melee hit against a blocking defender facing the
attacker leaves health unchanged, any other melee hit clamps off exactly
ATTACK_DAMAGE; projectiles never reduce anyone's health at all — the
projectile-versus-fighter overlap test is constant false (the projectile has
no width/height, so the comparison chain sees NaN), hence the projectile pass
leaves both fighters unchanged. -/
theorem claim_C5 (a d : Fighter) (g : Globals) (p : Projectile)
    (f1 f2 : Fighter) :
    (blockedCond a d → (handleAttack a d g).2.1.health = d.health) ∧
    (¬blockedCond a d →
      (handleAttack a d g).2.1.health = max 0 (d.health - ATTACK_DAMAGE)) ∧
    checkCollision p.rect f2.rect = false ∧
    (projStepOne f1 f2 p).1 = f1 ∧ (projStepOne f1 f2 p).2.1 = f2 := by
  refine ⟨?_, ?_, checkCollision_projRect p _, (projStepOne_fst f1 f2 p).1,
    (projStepOne_fst f1 f2 p).2⟩
  · intro h
    rw [handleAttack_eq_blocked a d g h]
  · intro h
    rw [handleAttack_snd_full a d g h]

/-- Witness for amended C5: a blocked melee hit keeps health, an unblocked one
clamps off 15, and the projectile pass leaves fighter 1 untouched. -/
theorem claim_C5_witness :
    (handleAttack fighter1Init blockingDefender globalsInit).2.1.health =
      blockingDefender.health ∧
    (handleAttack fighter1Init fighter2Init globalsInit).2.1.health =
      max 0 (fighter2Init.health - ATTACK_DAMAGE) ∧
    (projStepOne fighter1Init fighter2Init pInside).1 = fighter1Init := by
  refine ⟨?_, ?_, ?_⟩
  · exact (claim_C5 fighter1Init blockingDefender globalsInit pInside
      fighter1Init fighter2Init).1 (by decide)
  · exact (claim_C5 fighter1Init fighter2Init globalsInit pInside
      fighter1Init fighter2Init).2.1 (by decide)
  · exact (claim_C5 fighter1Init fighter2Init globalsInit pInside
      fighter1Init fighter2Init).2.2.2.1

/-- Claim C6 evaluated at its failing input: a 25-damage projectile sits inside
the 10-health, non-blocking defender, yet after the tick the defender still
has health 10, the phase is still `playing`, no winner is set and no score is
credited — a projectile can never reduce health to 0, and the projectile
branch carries no win check at all. -/
theorem claim_C6_bug :
    (updateGame noKeys gProjKill).fighter2.health = lowHealthDefender.health ∧
    (updateGame noKeys gProjKill).phase = Phase.playing ∧
    (updateGame noKeys gProjKill).winner = none ∧
    (updateGame noKeys gProjKill).player1Score = 0 := by
  norm_num [updateGame, gProjKill, meleeStep, meleeCheck, handleAttack,
    attackRange, checkCollision, Fighter.rect, Projectile.rect, jsLt, jsGt,
    jsAdd, projStep, projStepOne, projAdvance, projInBounds, projOnHit,
    updateFighter, tickTimers, handleInput, inputP1, inputP2, inputFor,
    moveStage, applyFriction, jumpStage, attackStage, specialStage, blockStage,
    applyPhysics, createProjectile, lowHealthDefender, fighter1Init,
    fighter2Init, pInside, noKeys, CANVAS_WIDTH, GROUND_Y, GRAVITY, JUMP_FORCE,
    MOVE_SPEED, ATTACK_DAMAGE, SPECIAL_DAMAGE]

/-- Claim C7 evaluated at its failing input: projectiles do move by exactly
their velocity, and an out-of-margin projectile is removed, but a projectile
overlapping the non-owner fighter is NOT removed on that tick (the overlap
test is constant false): the filter returns it alive. -/
theorem claim_C7_bug :
    (projAdvance pInside).x = pInside.x + pInside.velocityX ∧
    (projAdvance pInside).y = pInside.y + pInside.velocityY ∧
    fighter2Init.x < (projAdvance pInside).x ∧
    (projAdvance pInside).x < fighter2Init.x + fighter2Init.width ∧
    (projStepOne fighter1Init fighter2Init pInside).2.2 =
      some (projAdvance pInside) ∧
    (projStepOne fighter1Init fighter2Init pFarRight).2.2 = none := by
  refine ⟨rfl, rfl, ?_, ?_, ?_, ?_⟩
  · norm_num [projAdvance, pInside, fighter2Init, fighter1Init, CANVAS_WIDTH,
      GROUND_Y]
  · norm_num [projAdvance, pInside, fighter2Init, fighter1Init, CANVAS_WIDTH,
      GROUND_Y]
  · norm_num [projStepOne, projAdvance, projInBounds, checkCollision,
      Projectile.rect, Fighter.rect, jsLt, jsGt, jsAdd, pInside, fighter1Init,
      fighter2Init, CANVAS_WIDTH, GROUND_Y]
  · norm_num [projStepOne, projAdvance, projInBounds, checkCollision,
      Projectile.rect, Fighter.rect, jsLt, jsGt, jsAdd, pFarRight, pInside,
      fighter1Init, fighter2Init, CANVAS_WIDTH, GROUND_Y]

/-- Counterexample to C8 as stated: the 20-energy fighter holding special
spawns nothing, but its energy does not stay exactly 20 — passive
regeneration raises it to 20.5. -/
theorem claim_C8_cex :
    (updateFighter keySpecial lowEnergyFighter).1.energy ≠ 20 ∧
    (updateFighter keySpecial lowEnergyFighter).1.energy = 20.5 ∧
    (updateFighter keySpecial lowEnergyFighter).2 = none := by
  have he : (updateFighter keySpecial lowEnergyFighter).1.energy = 20.5 := by
    norm_num [updateFighter, tickTimers, handleInput, inputP1, inputFor,
      moveStage, applyFriction, jumpStage, attackStage, specialStage,
      blockStage, applyPhysics, lowEnergyFighter, fighter1Init, keySpecial,
      noKeys, MOVE_SPEED, CANVAS_WIDTH, GROUND_Y, GRAVITY, min_def]
  refine ⟨by rw [he]; norm_num, he, ?_⟩
  rw [updateFighter_snd]
  unfold handleInput inputP1 inputP2
  split_ifs
  · apply inputFor_snd_none
    norm_num [tickTimers_energy, lowEnergyFighter, fighter1Init, min_def]
  · apply inputFor_snd_none
    norm_num [tickTimers_energy, lowEnergyFighter, fighter1Init, min_def]
  · rfl

/-- Claim C8 amended: a fighter whose post-regeneration energy is below 30
spawns no projectile on that tick and its energy is exactly the regenerated
value (so 20 becomes min(maxEnergy, 20.5), not 20): the special deduction
never fires. -/
theorem claim_C8 (k : Keys) (f : Fighter) (h : (tickTimers f).energy < 30) :
    (updateFighter k f).1.energy = (tickTimers f).energy ∧
    (updateFighter k f).2 = none := by
  constructor
  · rw [updateFighter_fst, applyPhysics_energy]
    unfold handleInput inputP1 inputP2
    split_ifs
    · rw [inputFor_fst_energy, if_neg]
      rintro ⟨-, h30, -⟩
      linarith
    · rw [inputFor_fst_energy, if_neg]
      rintro ⟨-, h30, -⟩
      linarith
    · rfl
  · rw [updateFighter_snd]
    unfold handleInput inputP1 inputP2
    split_ifs
    · exact inputFor_snd_none _ _ _ _ _ _ _ _ h
    · exact inputFor_snd_none _ _ _ _ _ _ _ _ h
    · rfl

/-- Witness for amended C8 at the 20-energy fighter. -/
theorem claim_C8_witness :
    (updateFighter keySpecial lowEnergyFighter).1.energy =
      (tickTimers lowEnergyFighter).energy ∧
    (updateFighter keySpecial lowEnergyFighter).2 = none :=
  claim_C8 keySpecial lowEnergyFighter
    (by norm_num [tickTimers_energy, lowEnergyFighter, fighter1Init, min_def])

/-- Claim C9: holding block together with attack (cooldown ready) or special
(energy and cooldown ready) on an unstunned tick leaves the end-of-tick state
`blocking` (block is checked last), while the side effects still happen: the
attack arms its 30-tick cooldown (and, the state no longer being `attacking`,
the following tick's melee check is skipped, so the activation deals no
damage), and the special still deducts 30 energy, arms its 60-tick cooldown
and spawns its projectile. -/
theorem claim_C9 (k : Keys) (f : Fighter)
    (hh : (tickTimers f).hitStun = 0) (hb : (tickTimers f).blockStun = 0)
    (hblk : blockKey k f = true) :
    (attackKey k f = true → (tickTimers f).attackCooldown = 0 →
      (updateFighter k f).1.state = FState.blocking ∧
      (updateFighter k f).1.attackCooldown = 30 ∧
      (∀ k2 df g,
        meleeCheck (updateFighter k2 (updateFighter k f).1).1 df g =
          ((updateFighter k2 (updateFighter k f).1).1, df, g))) ∧
    (specialKey k f = true → 30 ≤ (tickTimers f).energy →
      (tickTimers f).specialCooldown = 0 →
      (updateFighter k f).1.state = FState.blocking ∧
      (updateFighter k f).1.energy = (tickTimers f).energy - 30 ∧
      (updateFighter k f).1.specialCooldown = 60 ∧
      (updateFighter k f).2.isSome = true) := by
  obtain ⟨mvL, mvR, jmp, atk, spc, blk, pt, hEq, hAtk, hSpc, hBlk⟩ :
      ∃ mvL mvR jmp atk spc blk pt,
        (if (tickTimers f).id = 1 then inputP1 k (tickTimers f)
          else inputP2 k (tickTimers f))
            = inputFor mvL mvR jmp atk spc blk pt (tickTimers f) ∧
        atk = attackKey k f ∧ spc = specialKey k f ∧ blk = blockKey k f := by
    by_cases hid : f.id = 1
    · exact ⟨k.keyQ, k.keyD, k.keyZ, k.keyF, k.keyG, k.keyS, .ice,
        by rw [if_pos (by rw [tickTimers_id]; exact hid)]; rfl,
        by simp [attackKey, hid], by simp [specialKey, hid],
        by simp [blockKey, hid]⟩
    · exact ⟨k.arrowLeft, k.arrowRight, k.arrowUp, k.keyN, k.keyM, k.arrowDown,
        .fireball,
        by rw [if_neg (by rw [tickTimers_id]; exact hid)]; rfl,
        by simp [attackKey, hid], by simp [specialKey, hid],
        by simp [blockKey, hid]⟩
  have hhi : handleInput k (tickTimers f) =
      inputFor mvL mvR jmp atk spc blk pt (tickTimers f) := by
    unfold handleInput
    rw [if_pos ⟨hh, hb⟩]
    exact hEq
  have hblk' : blk = true := by rw [hBlk]; exact hblk
  have hstate : (updateFighter k f).1.state = FState.blocking := by
    have h0 : (handleInput k (tickTimers f)).1.state = FState.blocking := by
      rw [hhi, hblk']
      exact inputFor_fst_state_blocking _ _ _ _ _ _ _
    rw [updateFighter_fst, applyPhysics_state_of_ne_jumping _ (by rw [h0]; decide)]
    exact h0
  constructor
  · intro ha hac
    have hatk' : atk = true := by rw [hAtk]; exact ha
    have hcd : (updateFighter k f).1.attackCooldown = 30 := by
      rw [updateFighter_fst, applyPhysics_attackCooldown, hhi,
        inputFor_fst_attackCooldown, if_pos ⟨hatk', hac⟩]
    refine ⟨hstate, hcd, ?_⟩
    intro k2 df g
    have h1 : (updateFighter k f).1.state ≠ FState.attacking := by
      rw [hstate]; decide
    have h2 : (tickTimers (updateFighter k f).1).attackCooldown ≠ 0 := by
      rw [tickTimers_attackCooldown, hcd]; decide
    have hne := updateFighter_state_ne_attacking k2 (updateFighter k f).1 h1 h2
    unfold meleeCheck
    rw [if_neg]
    rintro ⟨hA, -⟩
    exact hne hA
  · intro hs he hc
    have hspc' : spc = true := by rw [hSpc]; exact hs
    refine ⟨hstate, ?_, ?_, ?_⟩
    · rw [updateFighter_fst, applyPhysics_energy, hhi, inputFor_fst_energy,
        if_pos ⟨by rw [hspc'], he, hc⟩]
    · rw [updateFighter_fst, applyPhysics_specialCooldown, hhi,
        inputFor_fst_specialCooldown, if_pos ⟨by rw [hspc'], he, hc⟩]
    · rw [updateFighter_snd, hhi, hspc']
      exact inputFor_snd_isSome _ _ _ _ _ _ _ he hc

/-- Witness for C9: fighter 1 holding attack+block ends the tick blocking with
cooldown 30 and the next tick's melee check is skipped; holding special+block
ends blocking, down 30 energy, cooldown 60, with a projectile spawned. -/
theorem claim_C9_witness :
    (updateFighter keyAttackBlock fighter1Init).1.state = FState.blocking ∧
    (updateFighter keyAttackBlock fighter1Init).1.attackCooldown = 30 ∧
    meleeCheck
        (updateFighter noKeys (updateFighter keyAttackBlock fighter1Init).1).1
        fighter2Init globalsInit =
      ((updateFighter noKeys (updateFighter keyAttackBlock fighter1Init).1).1,
        fighter2Init, globalsInit) ∧
    (updateFighter keySpecialBlock fighter1Init).1.state = FState.blocking ∧
    (updateFighter keySpecialBlock fighter1Init).1.energy =
      (tickTimers fighter1Init).energy - 30 ∧
    (updateFighter keySpecialBlock fighter1Init).1.specialCooldown = 60 ∧
    (updateFighter keySpecialBlock fighter1Init).2.isSome = true := by
  have h1 := (claim_C9 keyAttackBlock fighter1Init (by decide) (by decide)
    (by decide)).1 (by decide) (by decide)
  have h2 := (claim_C9 keySpecialBlock fighter1Init (by decide) (by decide)
    (by decide)).2 (by decide) (by decide) (by decide)
  exact ⟨h1.1, h1.2.1, h1.2.2 noKeys fighter2Init globalsInit, h2.1, h2.2.1,
    h2.2.2.1, h2.2.2.2⟩

/-- Claim C10: within one tick fighter 1's melee check runs first; when both
fighters are on their damage tick, in range, and fighter 1's hit is unblocked
(fighter 2 is attacking, hence not blocking), fighter 1's hit sets fighter 2's
state to `hit`, which makes fighter 2's own check fail: fighter 1 ends the
tick unhurt with its combo incremented, fighter 2 takes the clamped damage —
resolution is asymmetric in fighter 1's favor. -/
theorem claim_C10 (f1 f2 : Fighter) (g : Globals)
    (h1s : f1.state = FState.attacking) (h1c : f1.attackCooldown = 29)
    (hcol1 : checkCollision (attackRange f1) f2.rect = true)
    (h2s : f2.state = FState.attacking) (h2c : f2.attackCooldown = 29)
    (hcol2 : checkCollision (attackRange f2) f1.rect = true) :
    (meleeStep f1 f2 g).1.health = f1.health ∧
    (meleeStep f1 f2 g).1.combo = f1.combo + 1 ∧
    (meleeStep f1 f2 g).2.1.health = max 0 (f2.health - ATTACK_DAMAGE) ∧
    (meleeStep f1 f2 g).2.1.state = FState.hit := by
  have hnb : ¬blockedCond f1 f2 := by
    unfold blockedCond
    simp [h2s]
  have e1 : meleeCheck f1 f2 g = handleAttack f1 f2 g := by
    unfold meleeCheck
    rw [if_pos ⟨h1s, h1c, hcol1⟩]
  have eA := handleAttack_fst_full f1 f2 g hnb
  have eD := handleAttack_snd_full f1 f2 g hnb
  have e2 : meleeCheck (handleAttack f1 f2 g).2.1 (handleAttack f1 f2 g).1
      (handleAttack f1 f2 g).2.2
        = ((handleAttack f1 f2 g).2.1, (handleAttack f1 f2 g).1,
           (handleAttack f1 f2 g).2.2) := by
    unfold meleeCheck
    rw [if_neg]
    rintro ⟨hA, -⟩
    rw [eD] at hA
    simp at hA
  unfold meleeStep
  dsimp only
  rw [e1, e2, eA, eD]
  exact ⟨rfl, rfl, rfl, rfl⟩

/-- Witness for C10 at two concrete attackers in mutual range. -/
theorem claim_C10_witness :
    (meleeStep dualAttacker1 dualAttacker2 globalsInit).1.health =
      dualAttacker1.health ∧
    (meleeStep dualAttacker1 dualAttacker2 globalsInit).1.combo =
      dualAttacker1.combo + 1 ∧
    (meleeStep dualAttacker1 dualAttacker2 globalsInit).2.1.health =
      max 0 (dualAttacker2.health - ATTACK_DAMAGE) ∧
    (meleeStep dualAttacker1 dualAttacker2 globalsInit).2.1.state =
      FState.hit :=
  claim_C10 dualAttacker1 dualAttacker2 globalsInit (by decide) (by decide)
    (by norm_num [checkCollision, attackRange, Fighter.rect, jsLt, jsGt, jsAdd,
      dualAttacker1, dualAttacker2, fighter1Init, fighter2Init, CANVAS_WIDTH,
      GROUND_Y])
    (by decide) (by decide)
    (by norm_num [checkCollision, attackRange, Fighter.rect, jsLt, jsGt, jsAdd,
      dualAttacker1, dualAttacker2, fighter1Init, fighter2Init, CANVAS_WIDTH,
      GROUND_Y]
        rw [if_neg (by decide : ¬(Facing.left = Facing.right))]
        norm_num)

end FighterGame
